import Mathlib

/-!
Verification development for a two-stage PII detection pipeline:
a regular-expression pattern gate (`is_potential_pii`), a detection
pipeline (`detect_pii`) that filters lines through the gate and groups
classifier-labelled candidates by category, and a report builder
(`build_json`).

Strings are modelled as `String` / `List Char`; character classes of the
source regexes (`\d`, `\s`, `\w`, `[A-Z]`, `[0-9]`) are modelled at ASCII
granularity. The frozen classifier artifacts (feature transform + model)
are modelled as an explicit function parameter: the real classifier maps
each candidate line to a label, batched over the whole candidate list.
-/

namespace PiiDetect

/-- ASCII decimal digit: models `\d` / `[0-9]` of the source regexes. -/
def isDigitChar (c : Char) : Bool := '0' ≤ c && c ≤ '9'

/-- ASCII whitespace: models `\s` of the source regexes
(space, tab, newline, carriage return, vertical tab, form feed). -/
def isSpaceChar (c : Char) : Bool :=
  c = ' ' || c = '\t' || c = '\n' || c = '\r' || c = '\x0b' || c = '\x0c'

/-- ASCII word character: models `\w`, used by the `\b` word-boundary
assertions (letters, digits, underscore). -/
def isWordChar (c : Char) : Bool := c.isAlphanum || c = '_'

/-- ASCII uppercase letter: models `[A-Z]` of the source regexes. -/
def isUpperChar (c : Char) : Bool := 'A' ≤ c && c ≤ 'Z'

/-- Consume exactly `n` characters satisfying `p` from the front of the
list, returning the remainder; models a counted character class such as
`\d{4}` or `[A-Z]{5}`. -/
def takeN (p : Char → Bool) : Nat → List Char → Option (List Char)
  | 0, l => some l
  | _ + 1, [] => none
  | n + 1, c :: l => if p c then takeN p n l else none

/-- Continue matching with `k` after optionally consuming one separator
character satisfying `sep`; models an optional single-character class
such as `\s?` (both alternatives are tried, which is equivalent to the
backtracking search of the source regex engine for match existence). -/
def optSep (sep : Char → Bool) (l : List Char) (k : List Char → Bool) : Bool :=
  k l ||
    match l with
    | [] => false
    | c :: l' => sep c && k l'

/-- Continue matching with `k` when the previous step produced a
remainder; fail when it did not. -/
def optTest (o : Option (List Char)) (k : List Char → Bool) : Bool :=
  match o with
  | none => false
  | some l => k l

/-- The `\b` assertion before a match whose first character is a word
character: the preceding character (when there is one) is not a word
character. -/
def boundaryBefore : Option Char → Bool
  | none => true
  | some c => !isWordChar c

/-- The `\b` assertion after a match whose last character is a word
character: the following character (when there is one) is not a word
character. -/
def boundaryAfter : List Char → Bool
  | [] => true
  | c :: _ => !isWordChar c

/-- Match `\d{4}(sep)?\d{4}(sep)?\d{4}\b` at the current position; with
`sep := isSpaceChar` this is the body of `AADHAAR_REGEX`
(`\b\d{4}\s?\d{4}\s?\d{4}\b`) after its leading boundary. -/
def aadhaarHere (sep : Char → Bool) (l : List Char) : Bool :=
  optTest (takeN isDigitChar 4 l) fun l1 =>
    optSep sep l1 fun l2 =>
      optTest (takeN isDigitChar 4 l2) fun l3 =>
        optSep sep l3 fun l4 =>
          optTest (takeN isDigitChar 4 l4) fun l5 =>
            boundaryAfter l5

/-- Match `[A-Z]{5}[0-9]{4}[A-Z]\b` at the current position; the body of
`PAN_REGEX` (`\b[A-Z]{5}[0-9]{4}[A-Z]\b`) after its leading boundary. -/
def panHere (l : List Char) : Bool :=
  optTest (takeN isUpperChar 5 l) fun l1 =>
    optTest (takeN isDigitChar 4 l1) fun l2 =>
      optTest (takeN isUpperChar 1 l2) fun l3 =>
        boundaryAfter l3

/-- Match `[A-Z][0-9]{7}\b` at the current position; the body of
`PASSPORT_REGEX` (`\b[A-Z][0-9]{7}\b`) after its leading boundary. -/
def passportHere (l : List Char) : Bool :=
  optTest (takeN isUpperChar 1 l) fun l1 =>
    optTest (takeN isDigitChar 7 l1) fun l2 =>
      boundaryAfter l2

/-- Unanchored search: try the pattern body `here` at every position of
the list, checking the leading `\b` against the previous character
`prev`; models `Pattern.search` for the three source patterns (each of
which starts with `\b` followed by a word character, so the leading
boundary holds iff the previous character is absent or a non-word
character). -/
def searchAux (here : List Char → Bool) (prev : Option Char) : List Char → Bool
  | [] => boundaryBefore prev && here []
  | c :: l => (boundaryBefore prev && here (c :: l)) || searchAux here (some c) l

/-- `AADHAAR_REGEX.search(line)` of the source
(`re.compile(r"\b\d\x7b4\x7d\s?\d\x7b4\x7d\s?\d\x7b4\x7d\b")`), as a Bool. -/
def AADHAAR_search (line : String) : Bool :=
  searchAux (aadhaarHere isSpaceChar) none line.data

/-- `PAN_REGEX.search(line)` of the source
(`re.compile(r"\b[A-Z]\x7b5\x7d[0-9]\x7b4\x7d[A-Z]\b")`), as a Bool. -/
def PAN_search (line : String) : Bool :=
  searchAux panHere none line.data

/-- `PASSPORT_REGEX.search(line)` of the source
(`re.compile(r"\b[A-Z][0-9]\x7b7\x7d\b")`), as a Bool. -/
def PASSPORT_search (line : String) : Bool :=
  searchAux passportHere none line.data

/-- `is_potential_pii(line)` of the source: true iff one of the three
regex searches succeeds. -/
def is_potential_pii (line : String) : Bool :=
  AADHAAR_search line || PAN_search line || PASSPORT_search line

/-- The category→lines mapping of the source (`pii_output`), modelled as
an ordered association list to preserve Python-dict key order and the
possibility of a failed key lookup. -/
abbrev PiiDict := List (String × List String)

/-- Dict key lookup (`d[k]`): value at the first matching key, `none`
when the key is absent (a Python `KeyError`). -/
def dictGet (d : PiiDict) (k : String) : Option (List String) :=
  match d with
  | [] => none
  | kv :: d' => if kv.1 = k then some kv.2 else dictGet d' k

/-- Dict key membership test (`k in d`). -/
def dictMem (d : PiiDict) (k : String) : Bool :=
  match d with
  | [] => false
  | kv :: d' => kv.1 = k || dictMem d' k

/-- In-place `d[k].append(v)` of the source: append `v` to the list
stored under key `k`, leaving other entries unchanged. -/
def dictAppend (d : PiiDict) (k : String) (v : String) : PiiDict :=
  d.map fun kv => if kv.1 = k then (kv.1, kv.2 ++ [v]) else kv

/-- Insertion into a `String`-keyed dict with Python semantics: an
existing key keeps its position and gets the new value, a new key goes
to the end; models the evaluation of a dict literal entry. -/
def dictInsert (d : List (String × α)) (k : String) (v : α) : List (String × α) :=
  if d.any (fun kv => kv.1 = k) then
    d.map fun kv => if kv.1 = k then (kv.1, v) else kv
  else
    d ++ [(k, v)]

/-- The initial `pii_output` dict of `detect_pii`: the three category
keys, each with an empty list. -/
def emptyPiiOutput : PiiDict := [("AADHAAR", []), ("PAN", []), ("PASSPORT", [])]

/-- One iteration of the grouping loop of `detect_pii`:
`if label in pii_output: pii_output[label].append(line)`. -/
def classifyStep (out : PiiDict) (lp : String × String) : PiiDict :=
  if dictMem out lp.2 then dictAppend out lp.2 lp.1 else out

/-- `detect_pii(lines)` of the source. The frozen classifier pipeline
`model.predict(vectorizer.transform(...))` is modelled by the parameter
`classify`, mapping the batch of candidate lines to the index-aligned
batch of predicted labels. -/
def detect_pii (classify : List String → List String) (lines : List String) : PiiDict :=
  let candidate_lines := lines.filter fun line => is_potential_pii line
  let pii_output := emptyPiiOutput
  if candidate_lines.isEmpty then pii_output
  else
    let predictions := classify candidate_lines
    (candidate_lines.zip predictions).foldl classifyStep pii_output

/-- The batches of lines that `detect_pii(lines)` hands to the
classifier (`vectorizer.transform` / `model.predict`): none when the
candidate list is empty (the short-circuit return), otherwise the single
batch of all candidate lines. -/
def detect_pii_batches (lines : List String) : List (List String) :=
  let candidate_lines := lines.filter fun line => is_potential_pii line
  if candidate_lines.isEmpty then [] else [candidate_lines]

/-- The `summary` object of the report built by `build_json`. -/
structure Summary where
  aadhaar_count : Nat
  pan_count : Nat
  passport_count : Nat
  total_pii_items : Nat
deriving DecidableEq

/-- The report built by `build_json`: document name, summary counts, and
the `detected_pii` dict keyed by display labels (ordered association
list, Python dict-literal semantics). -/
structure Report where
  document_name : String
  summary : Summary
  detected_pii : List (String × List String)
deriving DecidableEq

/-- `build_json(document_name, pii_data)` of the source. `label_mapping`
models the loaded label-mapping artifact as a function from internal tag
to display label (the artifact is a fixed read-only table holding the
three category keys). A missing category key in `pii_data` is a Python
`KeyError`, modelled as `none`. -/
def build_json (label_mapping : String → String) (document_name : String)
    (pii_data : PiiDict) : Option Report :=
  match dictGet pii_data "AADHAAR", dictGet pii_data "PAN", dictGet pii_data "PASSPORT" with
  | some a, some p, some q =>
    some
      { document_name := document_name
        summary :=
          { aadhaar_count := a.length
            pan_count := p.length
            passport_count := q.length
            total_pii_items := a.length + p.length + q.length }
        detected_pii :=
          dictInsert (dictInsert (dictInsert [] (label_mapping "AADHAAR") a)
            (label_mapping "PAN") p) (label_mapping "PASSPORT") q }
  | _, _, _ => none

/-! ### Declarative shape predicates

Declarative counterparts of the three regex patterns, stated as
decompositions of the character list, used to relate the executable
matcher to the structural pattern descriptions. -/

/-- A group of exactly `n` digit characters. -/
def DigitGroup (n : Nat) (g : List Char) : Prop :=
  g.length = n ∧ ∀ c ∈ g, isDigitChar c = true

/-- A group of exactly `n` uppercase letters. -/
def UpperGroup (n : Nat) (g : List Char) : Prop :=
  g.length = n ∧ ∀ c ∈ g, isUpperChar c = true

/-- An optional single separator: empty, or one character satisfying
`sep`. -/
def SepOpt (sep : Char → Bool) (s : List Char) : Prop :=
  s = [] ∨ ∃ c, sep c = true ∧ s = [c]

/-- The text before the match ends at a word boundary: it is empty or
ends in a non-word character. -/
def NonWordEdgeBefore (pre : List Char) : Prop :=
  ∀ c, pre.getLast? = some c → isWordChar c = false

/-- The text after the match starts at a word boundary: it is empty or
starts with a non-word character. -/
def NonWordEdgeAfter (post : List Char) : Prop :=
  ∀ c, post.head? = some c → isWordChar c = false

/-- The text contains a substring of the AADHAAR shape: three groups of
4 digits, each pair of adjacent groups optionally separated by a single
`sep` character, bounded by word boundaries. -/
def AadhaarShaped (sep : Char → Bool) (cs : List Char) : Prop :=
  ∃ pre g1 s1 g2 s2 g3 post,
    cs = pre ++ g1 ++ s1 ++ g2 ++ s2 ++ g3 ++ post ∧
    DigitGroup 4 g1 ∧ SepOpt sep s1 ∧ DigitGroup 4 g2 ∧ SepOpt sep s2 ∧
    DigitGroup 4 g3 ∧ NonWordEdgeBefore pre ∧ NonWordEdgeAfter post

/-- The text contains a substring of the PAN shape: 5 uppercase letters,
4 digits, 1 uppercase letter, bounded by word boundaries. -/
def PanShaped (cs : List Char) : Prop :=
  ∃ pre u5 d4 u1 post,
    cs = pre ++ u5 ++ d4 ++ u1 ++ post ∧
    UpperGroup 5 u5 ∧ DigitGroup 4 d4 ∧ UpperGroup 1 u1 ∧
    NonWordEdgeBefore pre ∧ NonWordEdgeAfter post

/-- The text contains a substring of the passport shape: 1 uppercase
letter followed by 7 digits, bounded by word boundaries. -/
def PassportShaped (cs : List Char) : Prop :=
  ∃ pre u1 d7 post,
    cs = pre ++ u1 ++ d7 ++ post ∧
    UpperGroup 1 u1 ∧ DigitGroup 7 d7 ∧
    NonWordEdgeBefore pre ∧ NonWordEdgeAfter post

/-- The candidate predicate as the specification words it: a line is a
candidate iff it contains an AADHAAR-shaped substring whose optional
separators are a single space, a PAN-shaped substring, or a
passport-shaped substring. -/
def spec_isCandidate (line : String) : Prop :=
  AadhaarShaped (fun c => c = ' ') line.data ∨ PanShaped line.data ∨
    PassportShaped line.data

/-! ### Matcher–shape equivalence -/

/-- The character immediately preceding the suffix that starts after
`pre`, given that `prev` preceded the whole list. -/
def lastOpt (prev : Option Char) : List Char → Option Char
  | [] => prev
  | c :: pre => lastOpt (some c) pre

theorem lastOpt_nil (prev : Option Char) : lastOpt prev [] = prev := rfl

theorem lastOpt_cons (prev : Option Char) (c : Char) (pre : List Char) :
    lastOpt prev (c :: pre) = lastOpt (some c) pre := rfl

theorem lastOpt_eq_getLast? : ∀ (pre : List Char) (prev : Option Char), pre ≠ [] →
    lastOpt prev pre = pre.getLast?
  | [c], _, _ => by simp [lastOpt]
  | c :: d :: pre, prev, _ => by
    rw [List.getLast?_cons_cons]
    exact lastOpt_eq_getLast? (d :: pre) (some c) (by simp)

theorem searchAux_eq_true_iff (here : List Char → Bool) (cs : List Char) (prev : Option Char) :
    searchAux here prev cs = true ↔
      ∃ pre post, cs = pre ++ post ∧ boundaryBefore (lastOpt prev pre) = true ∧
        here post = true := by
  induction cs generalizing prev with
  | nil =>
    simp only [searchAux, Bool.and_eq_true]
    constructor
    · rintro ⟨h1, h2⟩
      exact ⟨[], [], rfl, by simpa [lastOpt_nil] using h1, h2⟩
    · rintro ⟨pre, post, hcs, hb, hh⟩
      obtain ⟨rfl, rfl⟩ := List.append_eq_nil.mp hcs.symm
      exact ⟨by simpa [lastOpt_nil] using hb, hh⟩
  | cons c l ih =>
    simp only [searchAux, Bool.or_eq_true, Bool.and_eq_true, ih]
    constructor
    · rintro (⟨h1, h2⟩ | ⟨pre, post, rfl, hb, hh⟩)
      · exact ⟨[], c :: l, rfl, by simpa [lastOpt_nil] using h1, h2⟩
      · exact ⟨c :: pre, post, rfl, by rwa [lastOpt_cons], hh⟩
    · rintro ⟨pre, post, hcs, hb, hh⟩
      cases pre with
      | nil =>
        rw [List.nil_append] at hcs
        subst hcs
        exact Or.inl ⟨by simpa [lastOpt_nil] using hb, hh⟩
      | cons c' pre' =>
        simp only [List.cons_append, List.cons.injEq] at hcs
        obtain ⟨rfl, rfl⟩ := hcs
        exact Or.inr ⟨pre', post, rfl, by rwa [lastOpt_cons] at hb, hh⟩

theorem takeN_eq_some_iff (p : Char → Bool) (n : Nat) (l r : List Char) :
    takeN p n l = some r ↔ ∃ g, l = g ++ r ∧ g.length = n ∧ ∀ c ∈ g, p c = true := by
  induction n generalizing l with
  | zero =>
    simp only [takeN, Option.some.injEq]
    constructor
    · rintro rfl
      exact ⟨[], rfl, rfl, by simp⟩
    · rintro ⟨g, hl, hg, _⟩
      rw [List.length_eq_zero.mp hg] at hl
      simpa using hl
  | succ n ih =>
    cases l with
    | nil =>
      simp only [takeN]
      constructor
      · intro h
        simp at h
      · rintro ⟨g, hl, hg, _⟩
        cases g with
        | nil => simp at hg
        | cons d g' => simp at hl
    | cons c l' =>
      simp only [takeN]
      by_cases hc : p c = true
      · rw [if_pos hc, ih]
        constructor
        · rintro ⟨g, rfl, hg, hall⟩
          refine ⟨c :: g, rfl, by simp [hg], ?_⟩
          intro d hd
          rcases List.mem_cons.mp hd with rfl | hd'
          · exact hc
          · exact hall d hd'
        · rintro ⟨g, hl, hg, hall⟩
          cases g with
          | nil => simp at hg
          | cons d g' =>
            simp only [List.cons_append, List.cons.injEq] at hl
            obtain ⟨rfl, rfl⟩ := hl
            exact ⟨g', rfl, by simpa using hg, fun e he => hall e (List.mem_cons_of_mem c he)⟩
      · rw [if_neg hc]
        constructor
        · intro h
          simp at h
        · rintro ⟨g, hl, hg, hall⟩
          cases g with
          | nil => simp at hg
          | cons d g' =>
            simp only [List.cons_append, List.cons.injEq] at hl
            obtain ⟨rfl, rfl⟩ := hl
            exact absurd (hall c (List.mem_cons_self c g')) hc

theorem optSep_eq_true_iff (sep : Char → Bool) (l : List Char) (k : List Char → Bool) :
    optSep sep l k = true ↔ ∃ s r, l = s ++ r ∧ SepOpt sep s ∧ k r = true := by
  cases l with
  | nil =>
    simp only [optSep, Bool.or_false]
    constructor
    · intro h
      exact ⟨[], [], rfl, Or.inl rfl, h⟩
    · rintro ⟨s, r, h, _, hk⟩
      obtain ⟨rfl, rfl⟩ := List.append_eq_nil.mp h.symm
      exact hk
  | cons c l' =>
    simp only [optSep, Bool.or_eq_true, Bool.and_eq_true]
    constructor
    · rintro (h | ⟨hc, hk⟩)
      · exact ⟨[], c :: l', rfl, Or.inl rfl, h⟩
      · exact ⟨[c], l', rfl, Or.inr ⟨c, hc, rfl⟩, hk⟩
    · rintro ⟨s, r, h, hs, hk⟩
      rcases hs with rfl | ⟨d, hd, rfl⟩
      · rw [List.nil_append] at h
        subst h
        exact Or.inl hk
      · simp only [List.cons_append, List.nil_append, List.cons.injEq] at h
        obtain ⟨rfl, rfl⟩ := h
        exact Or.inr ⟨hd, hk⟩

theorem optTest_eq_true_iff (o : Option (List Char)) (k : List Char → Bool) :
    optTest o k = true ↔ ∃ l, o = some l ∧ k l = true := by
  cases o <;> simp [optTest]

theorem boundaryBefore_lastOpt (pre : List Char) :
    boundaryBefore (lastOpt none pre) = true ↔ NonWordEdgeBefore pre := by
  simp only [NonWordEdgeBefore]
  cases pre with
  | nil => simp [lastOpt, boundaryBefore]
  | cons c pre' =>
    rw [lastOpt_eq_getLast? (c :: pre') none (by simp)]
    generalize (c :: pre').getLast? = o
    cases o <;> simp [boundaryBefore]

theorem boundaryAfter_eq_true_iff (post : List Char) :
    boundaryAfter post = true ↔ NonWordEdgeAfter post := by
  simp only [NonWordEdgeAfter]
  cases post with
  | nil => simp [boundaryAfter]
  | cons c l => simp [boundaryAfter]

/-- The AADHAAR matcher body, parameterized by its separator class, is
equivalent to the declarative AADHAAR shape. -/
theorem aadhaar_search_iff_shaped (sep : Char → Bool) (cs : List Char) :
    searchAux (aadhaarHere sep) none cs = true ↔ AadhaarShaped sep cs := by
  rw [searchAux_eq_true_iff]
  constructor
  · rintro ⟨pre, post0, rfl, hb, hh⟩
    rw [aadhaarHere, optTest_eq_true_iff] at hh
    obtain ⟨l1, h1, hh⟩ := hh
    rw [takeN_eq_some_iff] at h1
    obtain ⟨g1, rfl, hg1len, hg1⟩ := h1
    rw [optSep_eq_true_iff] at hh
    obtain ⟨s1, l2, rfl, hs1, hh⟩ := hh
    rw [optTest_eq_true_iff] at hh
    obtain ⟨l3, h3, hh⟩ := hh
    rw [takeN_eq_some_iff] at h3
    obtain ⟨g2, rfl, hg2len, hg2⟩ := h3
    rw [optSep_eq_true_iff] at hh
    obtain ⟨s2, l4, rfl, hs2, hh⟩ := hh
    rw [optTest_eq_true_iff] at hh
    obtain ⟨l5, h5, hh⟩ := hh
    rw [takeN_eq_some_iff] at h5
    obtain ⟨g3, rfl, hg3len, hg3⟩ := h5
    exact ⟨pre, g1, s1, g2, s2, g3, l5, by simp only [List.append_assoc], ⟨hg1len, hg1⟩,
      hs1, ⟨hg2len, hg2⟩, hs2, ⟨hg3len, hg3⟩, (boundaryBefore_lastOpt pre).mp hb,
      (boundaryAfter_eq_true_iff l5).mp hh⟩
  · rintro ⟨pre, g1, s1, g2, s2, g3, post, rfl, hg1, hs1, hg2, hs2, hg3, hpre, hpost⟩
    refine ⟨pre, g1 ++ s1 ++ g2 ++ s2 ++ g3 ++ post, by simp only [List.append_assoc],
      (boundaryBefore_lastOpt pre).mpr hpre, ?_⟩
    rw [aadhaarHere, optTest_eq_true_iff]
    refine ⟨s1 ++ g2 ++ s2 ++ g3 ++ post,
      (takeN_eq_some_iff _ 4 _ _).mpr ⟨g1, by simp only [List.append_assoc], hg1.1, hg1.2⟩, ?_⟩
    rw [optSep_eq_true_iff]
    refine ⟨s1, g2 ++ s2 ++ g3 ++ post, by simp only [List.append_assoc], hs1, ?_⟩
    rw [optTest_eq_true_iff]
    refine ⟨s2 ++ g3 ++ post,
      (takeN_eq_some_iff _ 4 _ _).mpr ⟨g2, by simp only [List.append_assoc], hg2.1, hg2.2⟩, ?_⟩
    rw [optSep_eq_true_iff]
    refine ⟨s2, g3 ++ post, by simp only [List.append_assoc], hs2, ?_⟩
    rw [optTest_eq_true_iff]
    refine ⟨post, (takeN_eq_some_iff _ 4 _ _).mpr ⟨g3, rfl, hg3.1, hg3.2⟩, ?_⟩
    exact (boundaryAfter_eq_true_iff post).mpr hpost

/-- `PAN_REGEX.search` is equivalent to the declarative PAN shape. -/
theorem pan_search_iff_shaped (line : String) :
    PAN_search line = true ↔ PanShaped line.data := by
  rw [PAN_search, searchAux_eq_true_iff]
  constructor
  · rintro ⟨pre, post0, hcs, hb, hh⟩
    rw [panHere, optTest_eq_true_iff] at hh
    obtain ⟨l1, h1, hh⟩ := hh
    rw [takeN_eq_some_iff] at h1
    obtain ⟨u5, rfl, hu5len, hu5⟩ := h1
    rw [optTest_eq_true_iff] at hh
    obtain ⟨l2, h2, hh⟩ := hh
    rw [takeN_eq_some_iff] at h2
    obtain ⟨d4, rfl, hd4len, hd4⟩ := h2
    rw [optTest_eq_true_iff] at hh
    obtain ⟨l3, h3, hh⟩ := hh
    rw [takeN_eq_some_iff] at h3
    obtain ⟨u1, rfl, hu1len, hu1⟩ := h3
    exact ⟨pre, u5, d4, u1, l3, by simpa only [List.append_assoc] using hcs, ⟨hu5len, hu5⟩,
      ⟨hd4len, hd4⟩, ⟨hu1len, hu1⟩, (boundaryBefore_lastOpt pre).mp hb,
      (boundaryAfter_eq_true_iff l3).mp hh⟩
  · rintro ⟨pre, u5, d4, u1, post, hcs, hu5, hd4, hu1, hpre, hpost⟩
    refine ⟨pre, u5 ++ d4 ++ u1 ++ post, by simpa only [List.append_assoc] using hcs,
      (boundaryBefore_lastOpt pre).mpr hpre, ?_⟩
    rw [panHere, optTest_eq_true_iff]
    refine ⟨d4 ++ u1 ++ post,
      (takeN_eq_some_iff _ 5 _ _).mpr ⟨u5, by simp only [List.append_assoc], hu5.1, hu5.2⟩, ?_⟩
    rw [optTest_eq_true_iff]
    refine ⟨u1 ++ post,
      (takeN_eq_some_iff _ 4 _ _).mpr ⟨d4, by simp only [List.append_assoc], hd4.1, hd4.2⟩, ?_⟩
    rw [optTest_eq_true_iff]
    refine ⟨post, (takeN_eq_some_iff _ 1 _ _).mpr ⟨u1, rfl, hu1.1, hu1.2⟩, ?_⟩
    exact (boundaryAfter_eq_true_iff post).mpr hpost

/-- `PASSPORT_REGEX.search` is equivalent to the declarative passport
shape. -/
theorem passport_search_iff_shaped (line : String) :
    PASSPORT_search line = true ↔ PassportShaped line.data := by
  rw [PASSPORT_search, searchAux_eq_true_iff]
  constructor
  · rintro ⟨pre, post0, hcs, hb, hh⟩
    rw [passportHere, optTest_eq_true_iff] at hh
    obtain ⟨l1, h1, hh⟩ := hh
    rw [takeN_eq_some_iff] at h1
    obtain ⟨u1, rfl, hu1len, hu1⟩ := h1
    rw [optTest_eq_true_iff] at hh
    obtain ⟨l2, h2, hh⟩ := hh
    rw [takeN_eq_some_iff] at h2
    obtain ⟨d7, rfl, hd7len, hd7⟩ := h2
    exact ⟨pre, u1, d7, l2, by simpa only [List.append_assoc] using hcs, ⟨hu1len, hu1⟩,
      ⟨hd7len, hd7⟩, (boundaryBefore_lastOpt pre).mp hb,
      (boundaryAfter_eq_true_iff l2).mp hh⟩
  · rintro ⟨pre, u1, d7, post, hcs, hu1, hd7, hpre, hpost⟩
    refine ⟨pre, u1 ++ d7 ++ post, by simpa only [List.append_assoc] using hcs,
      (boundaryBefore_lastOpt pre).mpr hpre, ?_⟩
    rw [passportHere, optTest_eq_true_iff]
    refine ⟨d7 ++ post,
      (takeN_eq_some_iff _ 1 _ _).mpr ⟨u1, by simp only [List.append_assoc], hu1.1, hu1.2⟩, ?_⟩
    rw [optTest_eq_true_iff]
    refine ⟨post, (takeN_eq_some_iff _ 7 _ _).mpr ⟨d7, rfl, hd7.1, hd7.2⟩, ?_⟩
    exact (boundaryAfter_eq_true_iff post).mpr hpost

/-- `AADHAAR_REGEX.search` is equivalent to the declarative AADHAAR
shape with whitespace separators. -/
theorem aadhaar_search_iff_shaped_ws (line : String) :
    AADHAAR_search line = true ↔ AadhaarShaped isSpaceChar line.data :=
  aadhaar_search_iff_shaped isSpaceChar line.data

/-! ### Dictionary and pipeline lemmas -/

/-- The shape every intermediate value of the grouping loop keeps: the
three category keys in fixed order with their accumulated lines. -/
def piiTriple (a p q : List String) : PiiDict :=
  [("AADHAAR", a), ("PAN", p), ("PASSPORT", q)]

theorem classifyStep_triple (a p q : List String) (lp : String × String) :
    classifyStep (piiTriple a p q) lp =
      piiTriple (if lp.2 = "AADHAAR" then a ++ [lp.1] else a)
        (if lp.2 = "PAN" then p ++ [lp.1] else p)
        (if lp.2 = "PASSPORT" then q ++ [lp.1] else q) := by
  by_cases h1 : lp.2 = "AADHAAR"
  · simp [classifyStep, dictMem, dictAppend, piiTriple, h1]
  · by_cases h2 : lp.2 = "PAN"
    · simp [classifyStep, dictMem, dictAppend, piiTriple, h2]
    · by_cases h3 : lp.2 = "PASSPORT"
      · simp [classifyStep, dictMem, dictAppend, piiTriple, h3]
      · simp [classifyStep, dictMem, dictAppend, piiTriple, h1, h2, h3,
          Ne.symm h1, Ne.symm h2, Ne.symm h3]

theorem foldl_classifyStep_triple (ps : List (String × String)) (a p q : List String) :
    ps.foldl classifyStep (piiTriple a p q) =
      piiTriple (a ++ (ps.filter fun x => x.2 = "AADHAAR").map Prod.fst)
        (p ++ (ps.filter fun x => x.2 = "PAN").map Prod.fst)
        (q ++ (ps.filter fun x => x.2 = "PASSPORT").map Prod.fst) := by
  induction ps generalizing a p q with
  | nil => simp
  | cons x ps ih =>
    rw [List.foldl_cons, classifyStep_triple, ih]
    simp only [piiTriple, List.cons.injEq, Prod.mk.injEq, true_and, and_true]
    refine ⟨?_, ?_, ?_⟩
    · by_cases h : x.2 = "AADHAAR" <;> simp [h, List.filter_cons, List.append_assoc]
    · by_cases h : x.2 = "PAN" <;> simp [h, List.filter_cons, List.append_assoc]
    · by_cases h : x.2 = "PASSPORT" <;> simp [h, List.filter_cons, List.append_assoc]

/-- Characterization of `detect_pii`: its result is always the
three-key dict in fixed order, each category holding exactly the
candidate lines whose positionally paired prediction equals that
category, in input order. -/
theorem detect_pii_eq_triple (classify : List String → List String) (lines : List String) :
    detect_pii classify lines =
      piiTriple
        ((((lines.filter fun line => is_potential_pii line).zip
            (classify (lines.filter fun line => is_potential_pii line))).filter
            (fun x => x.2 = "AADHAAR")).map Prod.fst)
        ((((lines.filter fun line => is_potential_pii line).zip
            (classify (lines.filter fun line => is_potential_pii line))).filter
            (fun x => x.2 = "PAN")).map Prod.fst)
        ((((lines.filter fun line => is_potential_pii line).zip
            (classify (lines.filter fun line => is_potential_pii line))).filter
            (fun x => x.2 = "PASSPORT")).map Prod.fst) := by
  rw [detect_pii]
  by_cases he : (lines.filter fun line => is_potential_pii line).isEmpty = true
  · rw [if_pos he, List.isEmpty_iff.mp he]
    simp [emptyPiiOutput, piiTriple]
  · rw [if_neg he]
    have h0 : emptyPiiOutput = piiTriple [] [] [] := rfl
    rw [h0, foldl_classifyStep_triple]
    simp

theorem dictGet_piiTriple_aadhaar (a p q : List String) :
    dictGet (piiTriple a p q) "AADHAAR" = some a := by
  simp [piiTriple, dictGet]

theorem dictGet_piiTriple_pan (a p q : List String) :
    dictGet (piiTriple a p q) "PAN" = some p := by
  simp [piiTriple, dictGet]

theorem dictGet_piiTriple_passport (a p q : List String) :
    dictGet (piiTriple a p q) "PASSPORT" = some q := by
  simp [piiTriple, dictGet]

theorem dictGet_piiTriple_cases (a p q out : List String) (k : String)
    (h : dictGet (piiTriple a p q) k = some out) :
    (k = "AADHAAR" ∧ out = a) ∨ (k = "PAN" ∧ out = p) ∨ (k = "PASSPORT" ∧ out = q) := by
  rw [piiTriple, dictGet] at h
  by_cases h1 : ("AADHAAR" : String) = k
  · rw [if_pos h1] at h
    exact Or.inl ⟨h1.symm, (Option.some.inj h).symm⟩
  · rw [if_neg h1, dictGet] at h
    by_cases h2 : ("PAN" : String) = k
    · rw [if_pos h2] at h
      exact Or.inr (Or.inl ⟨h2.symm, (Option.some.inj h).symm⟩)
    · rw [if_neg h2, dictGet] at h
      by_cases h3 : ("PASSPORT" : String) = k
      · rw [if_pos h3] at h
        exact Or.inr (Or.inr ⟨h3.symm, (Option.some.inj h).symm⟩)
      · rw [if_neg h3, dictGet] at h
        exact absurd h (by simp)

theorem detect_pii_keys (classify : List String → List String) (lines : List String) :
    (detect_pii classify lines).map Prod.fst = ["AADHAAR", "PAN", "PASSPORT"] := by
  rw [detect_pii_eq_triple]
  rfl

theorem map_fst_zip_sublist (as bs : List String) :
    ((as.zip bs).map Prod.fst).Sublist as := by
  induction as generalizing bs with
  | nil => simp
  | cons a as ih =>
    cases bs with
    | nil => simp
    | cons b bs =>
      simp only [List.zip_cons_cons, List.map_cons]
      exact List.Sublist.cons₂ a (ih bs)

theorem filter_zip_map_fst_sublist (as bs : List String) (p : String × String → Bool) :
    ((((as.zip bs).filter p).map Prod.fst)).Sublist as :=
  ((List.filter_sublist (as.zip bs)).map Prod.fst).trans (map_fst_zip_sublist as bs)

theorem zip_map_self_snd (g : String → String) (as : List String) :
    ∀ p ∈ as.zip (as.map g), p.2 = g p.1 := by
  induction as with
  | nil => simp
  | cons a as ih =>
    simp only [List.map_cons, List.zip_cons_cons, List.mem_cons]
    rintro p (rfl | hp)
    · rfl
    · exact ih p hp

theorem not_mem_cat (L : String) (ps : List (String × String)) (k : String)
    (h : ∀ x ∈ ps, x.1 = L → x.2 ≠ k) :
    L ∉ (ps.filter fun x => x.2 = k).map Prod.fst := by
  intro hm
  obtain ⟨x, hx, hfst⟩ := List.mem_map.mp hm
  obtain ⟨hxzip, hsnd⟩ := List.mem_filter.mp hx
  exact h x hxzip hfst (of_decide_eq_true hsnd)

theorem mem_cat_label (g : String → String) (as : List String) (L : String) (k : String)
    (hm : L ∈ ((as.zip (as.map g)).filter fun x => x.2 = k).map Prod.fst) : g L = k := by
  obtain ⟨x, hx, hfst⟩ := List.mem_map.mp hm
  obtain ⟨hxzip, hsnd⟩ := List.mem_filter.mp hx
  rw [← hfst, ← zip_map_self_snd g as x hxzip]
  exact of_decide_eq_true hsnd

theorem mem_dictInsert_values {α : Type} (d : List (String × α)) (k : String) (v : α)
    (kv : String × α) (h : kv ∈ dictInsert d k v) :
    kv.2 = v ∨ ∃ kv' ∈ d, kv.2 = kv'.2 := by
  rw [dictInsert] at h
  by_cases hmem : d.any (fun kv => kv.1 = k) = true
  · rw [if_pos hmem] at h
    obtain ⟨kv', hkv', heq⟩ := List.mem_map.mp h
    by_cases hk : kv'.1 = k
    · rw [if_pos hk] at heq
      exact Or.inl (by rw [← heq])
    · rw [if_neg hk] at heq
      exact Or.inr ⟨kv', hkv', by rw [← heq]⟩
  · rw [if_neg hmem] at h
    rcases List.mem_append.mp h with h' | h'
    · exact Or.inr ⟨kv, h', rfl⟩
    · rw [List.mem_singleton.mp h']
      exact Or.inl rfl

theorem detected_pii_values (lm : String → String) (a p q : List String)
    (kv : String × List String)
    (h : kv ∈ dictInsert (dictInsert (dictInsert [] (lm "AADHAAR") a) (lm "PAN") p)
      (lm "PASSPORT") q) :
    kv.2 = a ∨ kv.2 = p ∨ kv.2 = q := by
  rcases mem_dictInsert_values _ _ _ _ h with h1 | ⟨kv1, h1, e1⟩
  · exact Or.inr (Or.inr h1)
  rcases mem_dictInsert_values _ _ _ _ h1 with h2 | ⟨kv2, h2, e2⟩
  · exact Or.inr (Or.inl (e1.trans h2))
  rcases mem_dictInsert_values _ _ _ _ h2 with h3 | ⟨kv3, h3, _⟩
  · exact Or.inl (e1.trans (e2.trans h3))
  · simp at h3

/-- A line rejected by the pattern gate reaches neither the classifier
batches nor any category of the grouped output. -/
theorem gate_false_excluded (L : String) (lines : List String)
    (classify : List String → List String) (h : is_potential_pii L = false) :
    (∀ b ∈ detect_pii_batches lines, L ∉ b) ∧
    (∀ k out, dictGet (detect_pii classify lines) k = some out → L ∉ out) := by
  have hnc : L ∉ lines.filter fun line => is_potential_pii line := by
    intro hm
    have hg := (List.mem_filter.mp hm).2
    rw [h] at hg
    exact absurd hg (by simp)
  constructor
  · intro b hb
    simp only [detect_pii_batches] at hb
    by_cases he : (lines.filter fun line => is_potential_pii line).isEmpty = true
    · rw [if_pos he] at hb
      simp at hb
    · rw [if_neg he] at hb
      rw [List.mem_singleton.mp hb]
      exact hnc
  · intro k out hout
    rw [detect_pii_eq_triple] at hout
    rcases dictGet_piiTriple_cases _ _ _ _ _ hout with ⟨_, rfl⟩ | ⟨_, rfl⟩ | ⟨_, rfl⟩ <;>
      exact fun hm => hnc ((filter_zip_map_fst_sublist _ _ _).subset hm)

/-! ### Claims -/

/-- C1, counterexample: the claim's "optionally separated by a single
space" does not match the code. The tab-separated line
`"1234\t5678\t9012"` passes the gate (the source pattern accepts any
whitespace separator), yet it contains no substring of the claimed
space-separated AADHAAR shape, nor a PAN or passport shape. -/
theorem C1_counterexample :
    is_potential_pii "1234\t5678\t9012" = true ∧
      ¬ spec_isCandidate "1234\t5678\t9012" := by
  constructor
  · decide
  · rw [spec_isCandidate]
    rintro (h | h | h)
    · exact absurd ((aadhaar_search_iff_shaped (fun c => c = ' ') _).mpr h) (by decide)
    · exact absurd ((pan_search_iff_shaped _).mpr h) (by decide)
    · exact absurd ((passport_search_iff_shaped _).mpr h) (by decide)

/-- C1 (amended: the optional AADHAAR separator is a single whitespace
character, not only a space): the pattern gate reports a line as a
candidate iff the line contains a substring of the AADHAAR shape with
optional single whitespace separators, of the PAN shape, or of the
passport shape, each bounded by word boundaries. -/
theorem C1_pattern_gate (line : String) :
    is_potential_pii line = true ↔
      AadhaarShaped isSpaceChar line.data ∨ PanShaped line.data ∨
        PassportShaped line.data := by
  rw [is_potential_pii, Bool.or_assoc]
  simp only [Bool.or_eq_true]
  exact or_congr (aadhaar_search_iff_shaped_ws line)
    (or_congr (pan_search_iff_shaped line) (passport_search_iff_shaped line))

/-- C2: when no line passes the pattern gate, `detect_pii` returns the
all-empty three-category mapping and hands no batch to the classifier
(`vectorizer.transform` / `model.predict` are never invoked). -/
theorem C2_empty_short_circuit (classify : List String → List String)
    (lines : List String) (h : ∀ line ∈ lines, is_potential_pii line = false) :
    detect_pii classify lines = emptyPiiOutput ∧ detect_pii_batches lines = [] := by
  have hf : (lines.filter fun line => is_potential_pii line) = [] := by
    rw [List.filter_eq_nil_iff]
    intro a ha
    simp [h a ha]
  constructor
  · simp [detect_pii, hf]
  · simp [detect_pii_batches, hf]

theorem C2_empty_short_circuit_witness :
    detect_pii (fun ls => ls.map fun _ => "AADHAAR") [] = emptyPiiOutput ∧
      detect_pii_batches [] = [] :=
  C2_empty_short_circuit (fun ls => ls.map fun _ => "AADHAAR") [] (by simp)

/-- C3: every category of `detect_pii`'s output is a subsequence of the
candidate sequence, which is a subsequence of the input lines — lines
are taken verbatim, input order is preserved within each category, and
no line occurs more often than in the input. -/
theorem C3_subsequence_invariant (classify : List String → List String)
    (lines : List String) :
    ∃ a p q,
      dictGet (detect_pii classify lines) "AADHAAR" = some a ∧
      dictGet (detect_pii classify lines) "PAN" = some p ∧
      dictGet (detect_pii classify lines) "PASSPORT" = some q ∧
      a.Sublist (lines.filter fun line => is_potential_pii line) ∧
      p.Sublist (lines.filter fun line => is_potential_pii line) ∧
      q.Sublist (lines.filter fun line => is_potential_pii line) ∧
      (lines.filter fun line => is_potential_pii line).Sublist lines := by
  rw [detect_pii_eq_triple]
  exact ⟨_, _, _, dictGet_piiTriple_aadhaar _ _ _, dictGet_piiTriple_pan _ _ _,
    dictGet_piiTriple_passport _ _ _, filter_zip_map_fst_sublist _ _ _,
    filter_zip_map_fst_sublist _ _ _, filter_zip_map_fst_sublist _ _ _,
    List.filter_sublist _⟩

/-- C4: a line that matches none of the three patterns is never passed
to the classifier (it is in no classifier batch) and appears in no
category of `detect_pii`'s output. -/
theorem C4_gate_monotonicity (L : String) (lines : List String)
    (classify : List String → List String) (h : is_potential_pii L = false) :
    (∀ b ∈ detect_pii_batches lines, L ∉ b) ∧
    (∀ k out, dictGet (detect_pii classify lines) k = some out → L ∉ out) :=
  gate_false_excluded L lines classify h

theorem C4_gate_monotonicity_witness :
    (∀ b ∈ detect_pii_batches ["hello world", "ABCDE1234F"], "hello world" ∉ b) ∧
    (∀ k out,
      dictGet (detect_pii (fun ls => ls.map fun _ => "PAN") ["hello world", "ABCDE1234F"]) k =
        some out → "hello world" ∉ out) :=
  C4_gate_monotonicity "hello world" ["hello world", "ABCDE1234F"]
    (fun ls => ls.map fun _ => "PAN") (by decide)

/-- C5: the three summary counts of `build_json` are the lengths of the
corresponding category sequences, and `total_pii_items` is their sum;
any further key of the grouped mapping contributes nothing. -/
theorem C5_count_consistency (label_mapping : String → String) (document_name : String)
    (pii_data : PiiDict) (a p q : List String)
    (ha : dictGet pii_data "AADHAAR" = some a) (hp : dictGet pii_data "PAN" = some p)
    (hq : dictGet pii_data "PASSPORT" = some q) :
    ∃ r, build_json label_mapping document_name pii_data = some r ∧
      r.summary.aadhaar_count = a.length ∧ r.summary.pan_count = p.length ∧
      r.summary.passport_count = q.length ∧
      r.summary.total_pii_items =
        r.summary.aadhaar_count + r.summary.pan_count + r.summary.passport_count := by
  rw [build_json, ha, hp, hq]
  exact ⟨_, rfl, rfl, rfl, rfl, rfl⟩

theorem C5_count_consistency_witness :
    ∃ r, build_json (fun s => s) "doc.pdf"
        (("extra", ["zzz"]) :: piiTriple ["1234 5678 9012"] [] ["A1234567", "B7654321"]) =
        some r ∧
      r.summary.aadhaar_count = (["1234 5678 9012"] : List String).length ∧
      r.summary.pan_count = ([] : List String).length ∧
      r.summary.passport_count = (["A1234567", "B7654321"] : List String).length ∧
      r.summary.total_pii_items =
        r.summary.aadhaar_count + r.summary.pan_count + r.summary.passport_count :=
  C5_count_consistency (fun s => s) "doc.pdf" _ _ _ _ (by decide) (by decide) (by decide)

/-- C6: a candidate line all of whose classifier labels lie outside the
known category set is silently excluded: it appears in no category of
`detect_pii`'s output, `build_json` still succeeds, and the line appears
in no `detected_pii` value of the report. -/
theorem C6_unrecognized_excluded (classify : List String → List String)
    (lines : List String) (L : String)
    (h : ∀ x ∈ (lines.filter fun line => is_potential_pii line).zip
        (classify (lines.filter fun line => is_potential_pii line)),
        x.1 = L → x.2 ≠ "AADHAAR" ∧ x.2 ≠ "PAN" ∧ x.2 ≠ "PASSPORT") :
    (∀ k out, dictGet (detect_pii classify lines) k = some out → L ∉ out) ∧
    (∀ label_mapping document_name, ∃ r,
      build_json label_mapping document_name (detect_pii classify lines) = some r ∧
      ∀ kv ∈ r.detected_pii, L ∉ kv.2) := by
  have hA := not_mem_cat L _ "AADHAAR" fun x hx hfst => (h x hx hfst).1
  have hP := not_mem_cat L _ "PAN" fun x hx hfst => (h x hx hfst).2.1
  have hQ := not_mem_cat L _ "PASSPORT" fun x hx hfst => (h x hx hfst).2.2
  constructor
  · intro k out hout
    rw [detect_pii_eq_triple] at hout
    rcases dictGet_piiTriple_cases _ _ _ _ _ hout with ⟨_, rfl⟩ | ⟨_, rfl⟩ | ⟨_, rfl⟩
    · exact hA
    · exact hP
    · exact hQ
  · intro label_mapping document_name
    rw [detect_pii_eq_triple, build_json, dictGet_piiTriple_aadhaar, dictGet_piiTriple_pan,
      dictGet_piiTriple_passport]
    refine ⟨_, rfl, ?_⟩
    intro kv hkv
    rcases detected_pii_values label_mapping _ _ _ kv hkv with h' | h' | h' <;> rw [h']
    · exact hA
    · exact hP
    · exact hQ

theorem C6_unrecognized_excluded_witness :
    (∀ k out,
      dictGet (detect_pii (fun ls => ls.map fun _ => "unrecognized") ["ABCDE1234F"]) k =
        some out → "ABCDE1234F" ∉ out) ∧
    (∀ label_mapping document_name, ∃ r,
      build_json label_mapping document_name
        (detect_pii (fun ls => ls.map fun _ => "unrecognized") ["ABCDE1234F"]) = some r ∧
      ∀ kv ∈ r.detected_pii, "ABCDE1234F" ∉ kv.2) :=
  C6_unrecognized_excluded (fun ls => ls.map fun _ => "unrecognized") ["ABCDE1234F"]
    "ABCDE1234F" (by decide)

/-- C7: the `detected_pii` object of the report is keyed by the display
labels obtained from the label mapping, in the fixed category order
AADHAAR, PAN, PASSPORT, each paired with that category's sequence. -/
theorem C7_display_label_order (label_mapping : String → String) (document_name : String)
    (pii_data : PiiDict) (a p q : List String)
    (ha : dictGet pii_data "AADHAAR" = some a) (hp : dictGet pii_data "PAN" = some p)
    (hq : dictGet pii_data "PASSPORT" = some q)
    (h1 : label_mapping "AADHAAR" ≠ label_mapping "PAN")
    (h2 : label_mapping "AADHAAR" ≠ label_mapping "PASSPORT")
    (h3 : label_mapping "PAN" ≠ label_mapping "PASSPORT") :
    ∃ r, build_json label_mapping document_name pii_data = some r ∧
      r.detected_pii = [(label_mapping "AADHAAR", a), (label_mapping "PAN", p),
        (label_mapping "PASSPORT", q)] := by
  rw [build_json, ha, hp, hq]
  refine ⟨_, rfl, ?_⟩
  simp [dictInsert, h1, h2, h3, Ne.symm h1, Ne.symm h2, Ne.symm h3]

theorem C7_display_label_order_witness :
    ∃ r, build_json (fun s => s) "doc.pdf" (piiTriple ["1234 5678 9012"] [] []) = some r ∧
      r.detected_pii = [("AADHAAR", ["1234 5678 9012"]), ("PAN", []), ("PASSPORT", [])] :=
  C7_display_label_order (fun s => s) "doc.pdf" (piiTriple ["1234 5678 9012"] [] [])
    ["1234 5678 9012"] [] [] (by decide) (by decide) (by decide) (by decide) (by decide)
    (by decide)

/-- C8: a line matching several patterns is still a single candidate:
each classifier batch contains it exactly once per input occurrence, and
(with the classifier labelling each line independently, as the frozen
row-wise model does) it lands in at most one category, never two. -/
theorem C8_single_classification (g : String → String) (lines : List String) (L : String)
    (hmulti : (PAN_search L = true ∧ PASSPORT_search L = true) ∨
      (AADHAAR_search L = true ∧ PAN_search L = true) ∨
      (AADHAAR_search L = true ∧ PASSPORT_search L = true)) :
    (∀ b ∈ detect_pii_batches lines, b.count L = lines.count L) ∧
    (∀ k1 k2 out1 out2, k1 ≠ k2 →
      dictGet (detect_pii (fun ls => ls.map g) lines) k1 = some out1 →
      dictGet (detect_pii (fun ls => ls.map g) lines) k2 = some out2 →
      L ∈ out1 → L ∉ out2) := by
  have hgate : is_potential_pii L = true := by
    rw [is_potential_pii]
    rcases hmulti with ⟨ha, hb⟩ | ⟨ha, hb⟩ | ⟨ha, hb⟩ <;> simp [ha, hb]
  constructor
  · intro b hb
    simp only [detect_pii_batches] at hb
    by_cases he : (lines.filter fun line => is_potential_pii line).isEmpty = true
    · rw [if_pos he] at hb
      simp at hb
    · rw [if_neg he] at hb
      rw [List.mem_singleton.mp hb]
      exact List.count_filter (by simpa using hgate)
  · intro k1 k2 out1 out2 hne hg1 hg2 hm1
    rw [detect_pii_eq_triple] at hg1 hg2
    rcases dictGet_piiTriple_cases _ _ _ _ _ hg1 with ⟨hk1, rfl⟩ | ⟨hk1, rfl⟩ | ⟨hk1, rfl⟩ <;>
      rcases dictGet_piiTriple_cases _ _ _ _ _ hg2 with ⟨hk2, rfl⟩ | ⟨hk2, rfl⟩ | ⟨hk2, rfl⟩ <;>
      first
      | exact absurd (hk1.trans hk2.symm) hne
      | exact fun hm2 =>
          absurd ((mem_cat_label g _ L _ hm1).symm.trans (mem_cat_label g _ L _ hm2))
            (by decide)

theorem C8_single_classification_witness :
    (∀ b ∈ detect_pii_batches ["ABCDE1234F A1234567"],
      b.count "ABCDE1234F A1234567" = (["ABCDE1234F A1234567"] : List String).count
        "ABCDE1234F A1234567") ∧
    (∀ k1 k2 out1 out2, k1 ≠ k2 →
      dictGet (detect_pii (fun ls => ls.map fun _ => "PAN") ["ABCDE1234F A1234567"]) k1 =
        some out1 →
      dictGet (detect_pii (fun ls => ls.map fun _ => "PAN") ["ABCDE1234F A1234567"]) k2 =
        some out2 →
      "ABCDE1234F A1234567" ∈ out1 → "ABCDE1234F A1234567" ∉ out2) :=
  C8_single_classification (fun _ => "PAN") ["ABCDE1234F A1234567"] "ABCDE1234F A1234567"
    (Or.inl ⟨by decide, by decide⟩)

/-- C9: `detect_pii` always returns the mapping with exactly the three
keys AADHAAR, PAN, PASSPORT in that order, which is precisely the key
set `build_json` reads, so `build_json` never fails a key lookup on an
output of `detect_pii`. -/
theorem C9_keys_closed (classify : List String → List String) (lines : List String)
    (label_mapping : String → String) (document_name : String) :
    (detect_pii classify lines).map Prod.fst = ["AADHAAR", "PAN", "PASSPORT"] ∧
    ∃ r, build_json label_mapping document_name (detect_pii classify lines) = some r := by
  refine ⟨detect_pii_keys classify lines, ?_⟩
  rw [detect_pii_eq_triple, build_json, dictGet_piiTriple_aadhaar, dictGet_piiTriple_pan,
    dictGet_piiTriple_passport]
  exact ⟨_, rfl⟩

/-- C10: the gate is case-sensitive for PAN and passport: a line without
any uppercase ASCII letter (for example one whose PAN-shaped or
passport-shaped tokens are lowercase) and without an AADHAAR match is
rejected by the gate and never reaches the classifier or any output
category. -/
theorem C10_case_sensitive_gate (L : String) (lines : List String)
    (classify : List String → List String)
    (hlower : ∀ c ∈ L.data, isUpperChar c = false)
    (haad : AADHAAR_search L = false) :
    is_potential_pii L = false ∧
    (∀ b ∈ detect_pii_batches lines, L ∉ b) ∧
    (∀ k out, dictGet (detect_pii classify lines) k = some out → L ∉ out) := by
  have hupper : ∀ (u : List Char) (n : Nat), UpperGroup (n + 1) u →
      (∀ pre d4 u1 post, L.data = pre ++ u ++ d4 ++ u1 ++ post → False) := by
    intro u n hu pre d4 u1 post hcs
    obtain ⟨c, u', rfl⟩ : ∃ c u', u = c :: u' := by
      cases u with
      | nil => exact absurd hu.1 (by simp)
      | cons c u' => exact ⟨c, u', rfl⟩
    have hc : isUpperChar c = true := hu.2 c (by simp)
    have hcL : c ∈ L.data := by
      rw [hcs]
      simp
    rw [hlower c hcL] at hc
    exact absurd hc (by simp)
  have hpan : PAN_search L = false := by
    cases hp : PAN_search L
    · rfl
    · obtain ⟨pre, u5, d4, u1, post, hcs, hu5, _, _, _, _⟩ := (pan_search_iff_shaped L).mp hp
      exact absurd hcs (fun hcs => hupper u5 4 hu5 pre d4 u1 post hcs)
  have hpass : PASSPORT_search L = false := by
    cases hp : PASSPORT_search L
    · rfl
    · obtain ⟨pre, u1, d7, post, hcs, hu1, _, _, _⟩ := (passport_search_iff_shaped L).mp hp
      exact absurd hcs (fun hcs => hupper u1 0 hu1 pre d7 [] post (by simpa using hcs))
  have hgate : is_potential_pii L = false := by
    rw [is_potential_pii, haad, hpan, hpass]
    rfl
  exact ⟨hgate, (gate_false_excluded L lines classify hgate).1,
    (gate_false_excluded L lines classify hgate).2⟩

theorem C10_case_sensitive_gate_witness :
    (is_potential_pii "abcde1234f" = false ∧
      (∀ b ∈ detect_pii_batches ["abcde1234f", "a1234567"], "abcde1234f" ∉ b) ∧
      (∀ k out,
        dictGet (detect_pii (fun ls => ls.map fun _ => "PAN") ["abcde1234f", "a1234567"]) k =
          some out → "abcde1234f" ∉ out)) ∧
    (is_potential_pii "a1234567" = false ∧
      (∀ b ∈ detect_pii_batches ["abcde1234f", "a1234567"], "a1234567" ∉ b) ∧
      (∀ k out,
        dictGet (detect_pii (fun ls => ls.map fun _ => "PAN") ["abcde1234f", "a1234567"]) k =
          some out → "a1234567" ∉ out)) :=
  ⟨C10_case_sensitive_gate "abcde1234f" ["abcde1234f", "a1234567"]
      (fun ls => ls.map fun _ => "PAN") (by decide) (by decide),
    C10_case_sensitive_gate "a1234567" ["abcde1234f", "a1234567"]
      (fun ls => ls.map fun _ => "PAN") (by decide) (by decide)⟩

end PiiDetect
